import Mathlib

/-!
Verification of the GeminiSpeak chat relay (FastAPI backend `chatbot.py`
and Streamlit client shell `streamlit.py`).

The relay service is embedded as pure functions: the upstream Gemini call
is a parameter (a function from the translated turn list to an upstream
outcome), and each handler returns both its result and the list of
upstream calls it issued, so that "never calls upstream" is expressible.
The client shell submission block is embedded as a state-transition
function on the shell session state.
-/

namespace GeminiSpeak

/-- Wire-level message part (`ChatPart` in chatbot.py): `text : str`. -/
structure ChatPart where
  text : String
deriving Repr, DecidableEq

/-- Wire-level chat turn (`ChatMessage` in chatbot.py): a role string and
an ordered list of parts. -/
structure ChatMessage where
  role : String
  parts : List ChatPart
deriving Repr, DecidableEq

/-- Wire-level request body (`ChatRequest` in chatbot.py). The pydantic
field constraints (min_length 1, max_length 1000 on `message`) are modelled
separately by `pydanticOk`, since pydantic enforces them before the handler
body runs. -/
structure ChatRequest where
  message : String
  chat_history : List ChatMessage
deriving Repr, DecidableEq

/-- Wire-level response body (`ChatResponse` in chatbot.py). -/
structure ChatResponse where
  ai_message : String
deriving Repr, DecidableEq

/-- A part of an upstream candidate content (google.generativeai shape). -/
structure GenPart where
  text : String
deriving Repr, DecidableEq

/-- Content of an upstream candidate: an ordered list of parts. -/
structure GenContent where
  parts : List GenPart
deriving Repr, DecidableEq

/-- One upstream candidate; `content = none` models a candidate whose
content is absent/falsy in the Python truthiness test at line 118. -/
structure GenCandidate where
  content : Option GenContent
deriving Repr, DecidableEq

/-- An upstream generate reply: a list of candidates. -/
structure GenResponse where
  candidates : List GenCandidate
deriving Repr, DecidableEq

/-- Outcome of the single upstream call in `chat_with_gemini`, covering
the exception types caught at lines 127-144. -/
inductive UpstreamOutcome where
  | success (resp : GenResponse)
  | blockedPrompt (msg : String)
  | apiError (status_code : Option Nat) (msg : String)
  | otherError (msg : String)
deriving Repr, DecidableEq

/-- The error taxonomy of the relay: one constructor per `raise
HTTPException` site in `chat_with_gemini`, carrying the `detail` string. -/
inductive ChatError where
  | serviceUnavailable (detail : String)
  | invalidInput (detail : String)
  | upstreamBlocked (detail : String)
  | upstreamError (status : Nat) (detail : String)
  | internalError (detail : String)
deriving Repr, DecidableEq

/-- HTTP status code attached to each `HTTPException` raise site in
chatbot.py. -/
def ChatError.status : ChatError → Nat
  | .serviceUnavailable _ => 500
  | .invalidInput _ => 400
  | .upstreamBlocked _ => 400
  | .upstreamError s _ => s
  | .internalError _ => 500

/-- chatbot.py line 102: `formatted_parts = [{"text": part.text} for part
in msg.parts]` combined with line 103: each history turn becomes
`{"role": msg.role, "parts": formatted_parts}`. -/
def formatTurn (msg : ChatMessage) : ChatMessage :=
  { role := msg.role, parts := msg.parts.map (fun p => { text := p.text }) }

/-- chatbot.py lines 96-103: the history reshaping loop, in order. -/
def formatHistory (history : List ChatMessage) : List ChatMessage :=
  history.map formatTurn

/-- The ordered turn sequence the upstream API receives: chatbot.py line
110 replays `formatted_history` via `start_chat`, then line 114 submits
`request.message`, which the SDK appends as the next user turn. -/
def upstreamTurns (request : ChatRequest) : List ChatMessage :=
  formatHistory request.chat_history ++
    [{ role := "user", parts := [{ text := request.message }] }]

/-- Python truthiness of `request.message.strip()` negated (chatbot.py
line 86): `not message.strip()` is true exactly when every character of
the message is whitespace (including the empty message). -/
def stripIsEmpty (s : String) : Bool := s.data.all Char.isWhitespace

/-- chatbot.py line 121: the literal fallback reply. -/
def fallbackReply : String := "Sorry, I couldn\x27t generate a coherent response."

/-- chatbot.py lines 117-122: read the first candidate first content part
text; fall back to the literal string when candidates, content or parts
are missing (Python truthiness of the three-way conjunction). -/
def extractText (resp : GenResponse) : String :=
  match resp.candidates with
  | [] => fallbackReply
  | c :: _ =>
    match c.content with
    | none => fallbackReply
    | some content =>
      match content.parts with
      | [] => fallbackReply
      | p :: _ => p.text

/-- chatbot.py lines 73-144, `chat_with_gemini`: the POST /chat handler
body. `modelInitialized` is the truthiness of the module-level `model`
(line 78); `upstream` is the Gemini call, mapped over the exact turn
sequence it is given. The second component records every upstream call
issued, so "never calls upstream" is the statement that it is `[]`. -/
def handleChat (modelInitialized : Bool)
    (upstream : List ChatMessage → UpstreamOutcome) (request : ChatRequest) :
    Except ChatError ChatResponse × List (List ChatMessage) :=
  if modelInitialized = false then
    (.error (.serviceUnavailable
      "Gemini model not initialized. Backend service unavailable."), [])
  else if stripIsEmpty request.message then
    (.error (.invalidInput "Message cannot be empty."), [])
  else
    let turns := upstreamTurns request
    match upstream turns with
    | .success resp => (.ok { ai_message := extractText resp }, [turns])
    | .blockedPrompt e =>
        (.error (.upstreamBlocked
          ("Your prompt was blocked by safety settings. Please try rephrasing: "
            ++ e)), [turns])
    | .apiError code msg =>
        (.error (.upstreamError (code.getD 500) ("Gemini API error: " ++ msg)),
          [turns])
    | .otherError e =>
        (.error (.internalError
          ("An unexpected internal server error occurred: " ++ e)), [turns])

/-- chatbot.py line 65: the pydantic field constraint on `message`
(`min_length=1, max_length=1000`), enforced by FastAPI request-model
validation before the handler runs. -/
def pydanticOk (message : String) : Bool :=
  1 ≤ message.length && message.length ≤ 1000

/-- Error as seen by an HTTP client of POST /chat: either the FastAPI
request-validation rejection (HTTP 422) raised before the handler when the
pydantic constraints fail, or a `ChatError` raised by the handler. -/
inductive PostError where
  | validation
  | handler (e : ChatError)
deriving Repr, DecidableEq

/-- HTTP status of a POST /chat error: FastAPI returns 422 for pydantic
request-validation failures; handler errors carry their own status. -/
def PostError.status : PostError → Nat
  | .validation => 422
  | .handler e => e.status

/-- The full POST /chat pipeline: pydantic validation of the request model
(chatbot.py line 65), then the handler `chat_with_gemini`. -/
def postChat (modelInitialized : Bool)
    (upstream : List ChatMessage → UpstreamOutcome)
    (message : String) (chat_history : List ChatMessage) :
    Except PostError ChatResponse × List (List ChatMessage) :=
  if pydanticOk message then
    let r := handleChat modelInitialized upstream { message, chat_history }
    (r.1.mapError .handler, r.2)
  else
    (.error .validation, [])

/-- One entry of the Streamlit session-state `messages` list:
`{"role": ..., "content": ...}` (streamlit.py lines 86 and 119). -/
structure ShellMessage where
  role : String
  content : String
deriving Repr, DecidableEq

/-- The client shell session state: the in-memory conversation list
(`st.session_state.messages`) and the busy flag
(`st.session_state.thinking`). -/
structure ShellState where
  messages : List ShellMessage
  thinking : Bool
deriving Repr, DecidableEq

/-- Outcome of the relay HTTP call as observed by the shell, covering the
except branches of streamlit.py lines 126-151. A `success` carries the
parsed JSON object of the 200 body, modelled as a string-to-string
association list. -/
inductive RelayOutcome where
  | success (body : List (String × String))
  | connectionError
  | timeout
  | httpError (status : Nat) (detail : String)
  | jsonDecodeError
  | otherError (msg : String)
deriving Repr, DecidableEq

/-- Whether the relay call failed (any except branch taken). -/
def RelayOutcome.isFailure : RelayOutcome → Bool
  | .success _ => false
  | _ => true

/-- Python `dict.get(key, default)` on the parsed JSON object
(streamlit.py line 116). -/
def jsonGet (obj : List (String × String)) (key : String)
    (dflt : String) : String :=
  match obj.find? (fun kv => kv.1 == key) with
  | some kv => kv.2
  | none => dflt

/-- streamlit.py line 116: the default substituted when the 200 body has
no ai_message key. -/
def shellFallback : String :=
  "Sorry, I couldn\x27t get a clear response from Gemini."

/-- streamlit.py lines 94-100: build `chat_history_for_api` from the
session messages, keeping only roles user and assistant and wrapping each
content string as a single-part turn. -/
def chatHistoryForApi (msgs : List ShellMessage) : List ChatMessage :=
  msgs.filterMap (fun m =>
    if m.role == "user" || m.role == "assistant" then
      some { role := m.role, parts := [{ text := m.content }] }
    else none)

/-- streamlit.py lines 140-147: the rendered text for an HTTPError,
dispatched on the status code. -/
def httpErrorText (status : Nat) (detail : String) : String :=
  if status = 400 then
    "Bad Request (Code 400): " ++ detail ++
      ". Your prompt might have been too long or violated safety policies."
  else if status = 404 then
    "Not Found (Code 404): " ++ detail ++
      ". The backend endpoint might be incorrect or missing."
  else if status = 500 then
    "Internal Server Error (Code 500): " ++ detail ++
      ". The backend encountered a problem."
  else
    "HTTP Error " ++ toString status ++ ": " ++ detail

/-- Everything one submission attempt produced: the shell state at the end
of the attempt, the request the shell sent to the relay, the error message
rendered (none on success), and whether the UI was re-run. -/
structure SubmitResult where
  state : ShellState
  sentMessage : String
  sentHistory : List ChatMessage
  errorShown : Option String
  reran : Bool
deriving Repr, DecidableEq

/-- streamlit.py lines 84-156: one chat submission attempt. The user turn
is appended first (line 86), `chat_history_for_api` is built from the list
that already contains it (lines 94-100), the POST body is
`{message: prompt, chat_history: chat_history_for_api}` (line 109), a
success appends the assistant turn (line 119) with `dict.get` fallback
(line 116), every except branch renders an error and leaves the list
alone (lines 126-151), and the finally block clears the thinking flag and
re-runs the UI (lines 152-156). -/
def shellSubmit (st : ShellState) (prompt : String)
    (outcome : RelayOutcome) : SubmitResult :=
  let messages1 := st.messages ++ [{ role := "user", content := prompt }]
  let history := chatHistoryForApi messages1
  let step : List ShellMessage × Option String :=
    match outcome with
    | .success body =>
        let ai := jsonGet body "ai_message" shellFallback
        (messages1 ++ [{ role := "assistant", content := ai }], none)
    | .connectionError =>
        (messages1, some ("Connection Error: Could not connect to the " ++
          "backend. Please ensure the FastAPI server is running and accessible."))
    | .timeout =>
        (messages1, some ("Request Timeout: The backend took too long to " ++
          "respond. Please try again."))
    | .httpError status detail => (messages1, some (httpErrorText status detail))
    | .jsonDecodeError =>
        (messages1, some ("Invalid Response: Received an unreadable response " ++
          "from the backend. The server might be misconfigured."))
    | .otherError e => (messages1, some ("An unexpected error occurred: " ++ e))
  { state := { messages := step.1, thinking := false },
    sentMessage := prompt,
    sentHistory := history,
    errorShown := step.2,
    reran := true }

/-- A message of 1001 characters, one over the pydantic maximum length. -/
def longMessage : String := String.mk (List.replicate 1001 'a')

/-- An upstream stub that always succeeds with the single reply text
given. -/
def constUpstream (reply : String) : List ChatMessage → UpstreamOutcome :=
  fun _ => .success { candidates := [{ content := some { parts := [{ text := reply }] } }] }

/-- C3: for every history [U1, M1, U2] and new message U3, the upstream
call receives the turns in exactly the order U1, M1, U2, U3, each history
turn translated to a role-and-parts object with turn order and part order
preserved (on this wire shape the translation is the identity). -/
theorem history_order_preserved_through_translation (u1 m1 u2 u3 : String) :
    upstreamTurns
      { message := u3,
        chat_history := [⟨"user", [⟨u1⟩]⟩, ⟨"model", [⟨m1⟩]⟩, ⟨"user", [⟨u2⟩]⟩] }
      = [⟨"user", [⟨u1⟩]⟩, ⟨"model", [⟨m1⟩]⟩, ⟨"user", [⟨u2⟩]⟩,
         ⟨"user", [⟨u3⟩]⟩]
    ∧ ∀ h : List ChatMessage, formatHistory h = h := by
  have hturn : ∀ t : ChatMessage, formatTurn t = t := by
    intro t
    cases t with
    | mk role parts =>
      simp only [formatTurn]
      induction parts with
      | nil => rfl
      | cons p ps ih =>
        simp_all
  constructor
  · rfl
  · intro h
    unfold formatHistory
    induction h with
    | nil => rfl
    | cons a t ih => simp [hturn, ih]

/-- C8: on every exit path of a submission attempt (success or any caught
failure) the thinking flag is cleared and the UI re-run: the finally block
runs unconditionally. -/
theorem busy_flag_always_cleared_and_rerendered
    (st : ShellState) (prompt : String) (o : RelayOutcome) :
    (shellSubmit st prompt o).state.thinking = false
    ∧ (shellSubmit st prompt o).reran = true :=
  ⟨rfl, rfl⟩

/-- C9: when the model failed to initialize, the handler rejects every
request with the 500 ServiceUnavailable error before any input
validation, so even an empty or all-whitespace message never sees the 400
InvalidInput error, and upstream is never called. -/
theorem uninitialized_model_check_precedes_validation
    (upstream : List ChatMessage → UpstreamOutcome) (req : ChatRequest) :
    handleChat false upstream req
      = (.error (.serviceUnavailable
          "Gemini model not initialized. Backend service unavailable."), [])
    ∧ (handleChat false upstream req).1 ≠
        .error (.invalidInput "Message cannot be empty.")
    ∧ ChatError.status (.serviceUnavailable
        "Gemini model not initialized. Backend service unavailable.") = 500 := by
  refine ⟨rfl, ?_, rfl⟩
  intro hcontra
  simp [handleChat] at hcontra

/-- C5: whenever the message reaches the upstream call and the reply has
no candidates, or its first candidate has no content or no parts, the
handler returns the literal fallback reply as a 200 ChatResponse and does
not raise. -/
theorem degenerate_upstream_reply_yields_fallback
    (upstream : List ChatMessage → UpstreamOutcome)
    (msg : String) (hist : List ChatMessage) (resp : GenResponse)
    (hmsg : stripIsEmpty msg = false)
    (hup : upstream (upstreamTurns ⟨msg, hist⟩) = .success resp)
    (hdeg : resp.candidates = [] ∨
      ∃ c cs, resp.candidates = c :: cs ∧
        (c.content = none ∨ ∃ ct, c.content = some ct ∧ ct.parts = [])) :
    (handleChat true upstream ⟨msg, hist⟩).1 = .ok ⟨fallbackReply⟩ := by
  have hex : extractText resp = fallbackReply := by
    rcases hdeg with h | ⟨c, cs, hc, h⟩
    · simp [extractText, h]
    · rcases h with h | ⟨ct, hct, hp⟩
      · simp [extractText, hc, h]
      · simp [extractText, hc, hct, hp]
  simp [handleChat, hmsg, hup, hex]

/-- Witness for C5 at a concrete input: message "hi" with empty history
against an upstream returning a reply with no candidates. -/
theorem degenerate_upstream_reply_yields_fallback_witness :
    (handleChat true (fun _ => .success ⟨[]⟩) ⟨"hi", []⟩).1
      = .ok ⟨fallbackReply⟩ :=
  degenerate_upstream_reply_yields_fallback (fun _ => .success ⟨[]⟩) "hi" []
    ⟨[]⟩ (by decide) rfl (Or.inl rfl)

/-- C7: every failing relay call leaves the shell conversation exactly as
it was when the call was issued: the pending user turn stays and no
assistant turn is appended. -/
theorem relay_failure_leaves_conversation_unchanged
    (st : ShellState) (prompt : String) (o : RelayOutcome)
    (h : o.isFailure = true) :
    (shellSubmit st prompt o).state.messages
      = st.messages ++ [{ role := "user", content := prompt }] := by
  cases o <;> simp_all [shellSubmit, RelayOutcome.isFailure]

/-- Witness for C7 at a concrete input: a timeout on the first submission
leaves only the pending user turn. -/
theorem relay_failure_leaves_conversation_unchanged_witness :
    (shellSubmit ⟨[], false⟩ "Hello" .timeout).state.messages
      = [] ++ [{ role := "user", content := "Hello" }] :=
  relay_failure_leaves_conversation_unchanged ⟨[], false⟩ "Hello" .timeout rfl

/-- C10: a 200 body without the ai_message key does not fail the shell:
the literal shell fallback string is substituted and appended as the
reply turn, with no error rendered. -/
theorem missing_ai_message_key_uses_shell_fallback
    (st : ShellState) (prompt : String) (body : List (String × String))
    (h : body.find? (fun kv => kv.1 == "ai_message") = none) :
    (shellSubmit st prompt (.success body)).state.messages
      = st.messages ++ [{ role := "user", content := prompt },
          { role := "assistant", content := shellFallback }]
    ∧ (shellSubmit st prompt (.success body)).errorShown = none := by
  constructor
  · simp [shellSubmit, jsonGet, h]
  · rfl

/-- Witness for C10 at a concrete input: a 200 body holding only a detail
key. -/
theorem missing_ai_message_key_uses_shell_fallback_witness :
    (shellSubmit ⟨[], false⟩ "Hello"
        (.success [("detail", "oops")])).state.messages
      = [] ++ [{ role := "user", content := "Hello" },
          { role := "assistant", content := shellFallback }]
    ∧ (shellSubmit ⟨[], false⟩ "Hello"
        (.success [("detail", "oops")])).errorShown = none :=
  missing_ai_message_key_uses_shell_fallback ⟨[], false⟩ "Hello"
    [("detail", "oops")] (by decide)

/-- C1 counterexample: the claim that the chat_history sent to the relay
excludes the newly submitted message is false. Submitting U3 after
history [U1, M1] sends a chat_history whose final turn carries exactly
the new message U3, because the shell appends the user turn to the
session list before building chat_history_for_api from it. -/
theorem sent_history_includes_new_message :
    (shellSubmit ⟨[⟨"user", "U1"⟩, ⟨"assistant", "M1"⟩], false⟩ "U3"
        .timeout).sentHistory
      = [⟨"user", [⟨"U1"⟩]⟩, ⟨"assistant", [⟨"M1"⟩]⟩, ⟨"user", [⟨"U3"⟩]⟩]
    ∧ (shellSubmit ⟨[⟨"user", "U1"⟩, ⟨"assistant", "M1"⟩], false⟩ "U3"
        .timeout).sentMessage = "U3" :=
  ⟨rfl, rfl⟩

/-- C1 amended: the chat_history the shell sends always includes the
newly submitted message as its final turn, and since the relay replays
that history and then appends the message again as the next turn, the new
message appears twice in the upstream turn sequence. -/
theorem shell_history_and_relay_both_carry_new_message
    (st : ShellState) (prompt : String) (o : RelayOutcome) :
    (shellSubmit st prompt o).sentHistory
      = chatHistoryForApi st.messages ++ [⟨"user", [⟨prompt⟩]⟩]
    ∧ upstreamTurns
        { message := prompt,
          chat_history := (shellSubmit st prompt o).sentHistory }
      = formatHistory (chatHistoryForApi st.messages)
        ++ [⟨"user", [⟨prompt⟩]⟩, ⟨"user", [⟨prompt⟩]⟩] := by
  have hsent : (shellSubmit st prompt o).sentHistory
      = chatHistoryForApi st.messages ++ [⟨"user", [⟨prompt⟩]⟩] := by
    cases o <;> simp [shellSubmit, chatHistoryForApi, List.filterMap_append]
  refine ⟨hsent, ?_⟩
  rw [hsent]
  simp [upstreamTurns, formatHistory, formatTurn]

/-- C2 counterexample: the claim that an over-long message is rejected by
the handler with InvalidInput (HTTP 400) is false: a 1001-character
message fails the pydantic field constraint, so FastAPI rejects it as a
request-validation error with HTTP 422 before the handler runs, which is
neither the InvalidInput kind nor status 400. -/
theorem overlong_message_rejected_with_422_not_400 :
    (postChat true (constUpstream "ok") longMessage []).1
      = .error .validation
    ∧ PostError.status .validation = 422 := by
  have hlen : longMessage.length = 1001 := by
    show (List.replicate 1001 'a').length = 1001
    rw [List.length_replicate]
  have hpy : pydanticOk longMessage = false := by
    unfold pydanticOk
    rw [hlen]
    decide
  exact ⟨by simp [postChat, hpy], rfl⟩

/-- C2 amended: messages that are empty or longer than 1000 characters
are rejected by pydantic request-model validation with HTTP 422 before
the handler runs; an all-whitespace message that passes the length
constraints is rejected by the handler with InvalidInput (HTTP 400) when
the model is initialized; in every such case upstream is never called. -/
theorem invalid_messages_rejected_before_upstream
    (upstream : List ChatMessage → UpstreamOutcome)
    (msg : String) (hist : List ChatMessage)
    (h : msg.length < 1 ∨ 1000 < msg.length ∨ stripIsEmpty msg = true) :
    (postChat true upstream msg hist).2 = []
    ∧ (msg.length < 1 ∨ 1000 < msg.length →
        (postChat true upstream msg hist).1 = .error .validation)
    ∧ (1 ≤ msg.length → msg.length ≤ 1000 → stripIsEmpty msg = true →
        (postChat true upstream msg hist).1
          = .error (.handler (.invalidInput "Message cannot be empty."))) := by
  by_cases hpy : pydanticOk msg = true
  · have hrange : 1 ≤ msg.length ∧ msg.length ≤ 1000 := by
      simpa [pydanticOk] using hpy
    have hws : stripIsEmpty msg = true := by
      rcases h with h1 | h2 | h3
      · omega
      · omega
      · exact h3
    refine ⟨?_, ?_, ?_⟩
    · simp [postChat, hpy, handleChat, hws]
    · intro hbad; omega
    · intro _ _ _
      simp [postChat, hpy, handleChat, hws, Except.mapError]
  · have hpy' : pydanticOk msg = false := by simpa using hpy
    have hrange : msg.length < 1 ∨ 1000 < msg.length := by
      by_contra hc
      push_neg at hc
      have h1 : 1 ≤ msg.length := by omega
      have h2 : msg.length ≤ 1000 := by omega
      simp [pydanticOk, h1, h2] at hpy'
    refine ⟨by simp [postChat, hpy'], fun _ => by simp [postChat, hpy'], ?_⟩
    intro h1 h2 _; omega

/-- Witness for the amended C2 at a concrete input: a single-space
message passes the length constraints and is rejected by the handler as
InvalidInput, with no upstream call. -/
theorem invalid_messages_rejected_before_upstream_witness :
    (postChat true (constUpstream "ok") " " []).2 = []
    ∧ ((" " : String).length < 1 ∨ 1000 < (" " : String).length →
        (postChat true (constUpstream "ok") " " []).1 = .error .validation)
    ∧ (1 ≤ (" " : String).length → (" " : String).length ≤ 1000 →
        stripIsEmpty " " = true →
        (postChat true (constUpstream "ok") " " []).1
          = .error (.handler (.invalidInput "Message cannot be empty."))) :=
  invalid_messages_rejected_before_upstream (constUpstream "ok") " " []
    (Or.inr (Or.inr (by decide)))

/-- C4 counterexample: the claim that a valid request never yields an
empty ai_message is false. The message "hi" is valid (non-empty, within
the length bound), yet when the upstream reply carries a first candidate
whose first part text is the empty string, the handler returns a
ChatResponse with ai_message equal to the empty string: the extraction at
chatbot.py line 119 passes any non-missing part text through unchecked. -/
theorem valid_request_can_yield_empty_ai_message :
    1 ≤ ("hi" : String).length ∧ ("hi" : String).length ≤ 1000
    ∧ (postChat true (constUpstream "") "hi" []).1 = .ok ⟨""⟩ :=
  ⟨by decide, by decide, rfl⟩

/-- C4 amended: for every valid request (non-empty message of at most
1000 characters), the POST /chat pipeline either returns a ChatResponse
whose ai_message is the extracted upstream text — the first part of the
first candidate, which may be empty, or the non-empty fallback reply — or
fails with one of the classified error kinds of the taxonomy; it never
fails outside the taxonomy. -/
theorem valid_requests_extracted_or_classified
    (b : Bool) (upstream : List ChatMessage → UpstreamOutcome)
    (msg : String) (hist : List ChatMessage)
    (h1 : 1 ≤ msg.length) (h2 : msg.length ≤ 1000) :
    (∃ resp, upstream (upstreamTurns ⟨msg, hist⟩) = .success resp ∧
        (postChat b upstream msg hist).1 = .ok ⟨extractText resp⟩)
    ∨ (∃ e : ChatError, (postChat b upstream msg hist).1
        = .error (.handler e)) := by
  have hpy : pydanticOk msg = true := by simp [pydanticOk, h1, h2]
  cases b with
  | false =>
    right
    exact ⟨.serviceUnavailable
      "Gemini model not initialized. Backend service unavailable.",
      by simp [postChat, hpy, handleChat, Except.mapError]⟩
  | true =>
    cases hws : stripIsEmpty msg with
    | true =>
      right
      exact ⟨.invalidInput "Message cannot be empty.",
        by simp [postChat, hpy, handleChat, hws, Except.mapError]⟩
    | false =>
      cases hup : upstream (upstreamTurns ⟨msg, hist⟩) with
      | success resp =>
        left
        exact ⟨resp, rfl,
          by simp [postChat, hpy, handleChat, hws, hup, Except.mapError]⟩
      | blockedPrompt e =>
        right
        exact ⟨.upstreamBlocked
          ("Your prompt was blocked by safety settings. Please try rephrasing: "
            ++ e),
          by simp [postChat, hpy, handleChat, hws, hup, Except.mapError]⟩
      | apiError code m =>
        right
        exact ⟨.upstreamError (code.getD 500) ("Gemini API error: " ++ m),
          by simp [postChat, hpy, handleChat, hws, hup, Except.mapError]⟩
      | otherError e =>
        right
        exact ⟨.internalError
          ("An unexpected internal server error occurred: " ++ e),
          by simp [postChat, hpy, handleChat, hws, hup, Except.mapError]⟩

/-- Witness for the amended C4 at a concrete input: message "Hello" with
an upstream that replies "Hi there!". -/
theorem valid_requests_extracted_or_classified_witness :
    (∃ resp, constUpstream "Hi there!" (upstreamTurns ⟨"Hello", []⟩)
        = .success resp ∧
        (postChat true (constUpstream "Hi there!") "Hello" []).1
          = .ok ⟨extractText resp⟩)
    ∨ (∃ e : ChatError,
        (postChat true (constUpstream "Hi there!") "Hello" []).1
          = .error (.handler e)) :=
  valid_requests_extracted_or_classified true (constUpstream "Hi there!")
    "Hello" [] (by decide) (by decide)

/-- C6 counterexample: the claim that every shell turn has role user or
model is false. After one successful submission of "Hello" from an empty
conversation, the shell holds the reply under role assistant, not model:
streamlit.py line 119 appends the reply with role assistant. -/
theorem shell_turn_role_is_assistant_not_model :
    ¬ (∀ m ∈ (shellSubmit ⟨[], false⟩ "Hello"
        (.success [("ai_message", "Hi there!")])).state.messages,
        m.role = "user" ∨ m.role = "model") := by decide

/-- C6 amended: every turn held by the client shell and every turn in the
chat_history it sends to the relay has role user or assistant (not
model), and a submission only appends: the turns already present are
unchanged at their positions afterwards, so no role is ever reassigned. -/
theorem shell_roles_user_or_assistant_and_append_only
    (st : ShellState) (prompt : String) (o : RelayOutcome)
    (hinv : ∀ m ∈ st.messages, m.role = "user" ∨ m.role = "assistant") :
    (∀ m ∈ (shellSubmit st prompt o).state.messages,
        m.role = "user" ∨ m.role = "assistant")
    ∧ (∀ t ∈ (shellSubmit st prompt o).sentHistory,
        t.role = "user" ∨ t.role = "assistant")
    ∧ ((shellSubmit st prompt o).state.messages).take st.messages.length
        = st.messages := by
  have hmsgs : ∃ rest : List ShellMessage,
      (shellSubmit st prompt o).state.messages
        = st.messages ++ (⟨"user", prompt⟩ :: rest)
      ∧ ∀ m ∈ rest, m.role = "assistant" := by
    cases o with
    | success body =>
      refine ⟨[⟨"assistant", jsonGet body "ai_message" shellFallback⟩],
        by simp [shellSubmit], ?_⟩
      intro m hm
      simp at hm
      rw [hm]
    | connectionError => exact ⟨[], by simp [shellSubmit], by simp⟩
    | timeout => exact ⟨[], by simp [shellSubmit], by simp⟩
    | httpError status detail => exact ⟨[], by simp [shellSubmit], by simp⟩
    | jsonDecodeError => exact ⟨[], by simp [shellSubmit], by simp⟩
    | otherError e => exact ⟨[], by simp [shellSubmit], by simp⟩
  obtain ⟨rest, heq, hrest⟩ := hmsgs
  refine ⟨?_, ?_, ?_⟩
  · intro m hm
    rw [heq] at hm
    rcases List.mem_append.mp hm with hm | hm
    · exact hinv m hm
    · rcases List.mem_cons.mp hm with hm | hm
      · left; rw [hm]
      · right; exact hrest m hm
  · intro t ht
    have hs : (shellSubmit st prompt o).sentHistory
        = chatHistoryForApi (st.messages ++ [⟨"user", prompt⟩]) := by
      cases o <;> rfl
    rw [hs] at ht
    unfold chatHistoryForApi at ht
    rw [List.mem_filterMap] at ht
    obtain ⟨a, _, hfa⟩ := ht
    cases hc : (a.role == "user" || a.role == "assistant") with
    | false => rw [if_neg (by simp [hc])] at hfa; exact absurd hfa (by simp)
    | true =>
      rw [if_pos (by simp [hc])] at hfa
      have ht' : t.role = a.role := by
        rw [← Option.some_inj.mp hfa]
      rw [ht']
      simpa using hc
  · rw [heq, List.take_left]

/-- Witness for the amended C6 at a concrete input: a successful first
submission from an empty conversation. -/
theorem shell_roles_user_or_assistant_and_append_only_witness :
    (∀ m ∈ (shellSubmit ⟨[], false⟩ "Hello"
        (.success [("ai_message", "Hi there!")])).state.messages,
        m.role = "user" ∨ m.role = "assistant")
    ∧ (∀ t ∈ (shellSubmit ⟨[], false⟩ "Hello"
        (.success [("ai_message", "Hi there!")])).sentHistory,
        t.role = "user" ∨ t.role = "assistant")
    ∧ ((shellSubmit ⟨[], false⟩ "Hello"
        (.success [("ai_message", "Hi there!")])).state.messages).take
          (List.length ([] : List ShellMessage))
        = ([] : List ShellMessage) :=
  shell_roles_user_or_assistant_and_append_only ⟨[], false⟩ "Hello"
    (.success [("ai_message", "Hi there!")]) (by simp)

end GeminiSpeak
